import Mathlib

/-!
The frame update of `main.cpp` (sfmlmap).

A shallow embedding of the state update performed by one iteration of the frame
loop of `src/main.cpp` (lines 56-87): keyboard movement, the clamp of the player
to the map, the clamp of the view centre to the map, and the light following the
player.

Numbers. A `float` value is embedded as the rational it denotes. The operations
of lines 65-66 that round in binary32 (the quotient `1.f / 60.f`, the product
`movement * deltaTime` and the sum inside `player.move`) are rounded with
`binary32`. The sums of lines 59-62 only produce 0 and ±200, and the subtractions
`mapSize - margin` and the halving of the view size are exact in binary32 for every
texture size the library can create, so they are written as exact operations.
The statements about the clamps are order properties quantified over all rational
positions, hence over every finite `float` position.
-/

/-- The `std::max(a, b)` of `<algorithm>`: `(a < b) ? b : a`. -/
def std.max (a b : ℚ) : ℚ := if a < b then b else a

/-- The `std::min(a, b)` of `<algorithm>`: `(b < a) ? b : a`. -/
def std.min (a b : ℚ) : ℚ := if b < a then b else a

namespace Sfmlmap

/-! ## Library values used by the program -/

/-- The `sf::Vector2f` value type: two coordinates. -/
structure Vector2f where
  x : ℚ
  y : ℚ
deriving DecidableEq

/-- The `sf::Vector2u` value type, the result of `Texture::getSize`. -/
structure Vector2u where
  x : ℕ
  y : ℕ
deriving DecidableEq

/-! ## binary32 arithmetic -/

/-- Rounding of a rational to the nearest integer, a tie going to the even one. -/
def roundHalfEven (q : ℚ) : ℤ :=
  let f := ⌊q⌋
  let r := q - f
  if r < 1 / 2 then f else if 1 / 2 < r then f + 1 else if f % 2 = 0 then f else f + 1

/-- IEEE 754 binary32 rounding of an exact result (round to nearest, ties to even):
24 significant bits, least exponent -126, below which values are spaced `2^-149`.
Overflow to infinity, which needs a magnitude near `2^128`, is not modelled. -/
def binary32 (q : ℚ) : ℚ :=
  if q = 0 then 0 else
    let ulp : ℚ := 2 ^ (max (Int.log 2 |q|) (-126) - 23)
    roundHalfEven (q / ulp) * ulp

/-- The binary32 sum `a + b`: the exact sum rounded. A zero operand gives the other
operand, as the rounding does on binary32 values; written out, this also holds for
the rationals of the model that are not binary32 values. -/
def addBinary32 (a b : ℚ) : ℚ :=
  if b = 0 then a else if a = 0 then b else binary32 (a + b)

/-- The `operator*(Vector2f, float)` of the library, componentwise, each product
rounded to binary32. -/
def Vector2f.scale (left : Vector2f) (right : ℚ) : Vector2f :=
  ⟨binary32 (left.x * right), binary32 (left.y * right)⟩

/-- The part of a `sf::CircleShape` the frame reads and writes: radius and position. -/
structure CircleShape where
  radius : ℚ
  position : Vector2f
deriving DecidableEq

/-- The `Transformable::move(offset)` of the library: adds the offset to the position,
in binary32. -/
def CircleShape.move (c : CircleShape) (offset : Vector2f) : CircleShape :=
  { c with position :=
      ⟨addBinary32 c.position.x offset.x, addBinary32 c.position.y offset.y⟩ }

/-- The `Transformable::setPosition` of the library. -/
def CircleShape.setPosition (c : CircleShape) (p : Vector2f) : CircleShape :=
  { c with position := p }

/-- The part of a `sf::View` the frame reads and writes: centre and size. -/
structure View where
  center : Vector2f
  size : Vector2f
deriving DecidableEq

/-- The `View::setCenter` of the library. -/
def View.setCenter (v : View) (c : Vector2f) : View :=
  { v with center := c }

/-! ## The program state and one frame -/

/-- The four movement keys as reported by `Keyboard::isKeyPressed` in one frame. -/
structure Keys where
  W : Bool
  S : Bool
  A : Bool
  D : Bool
deriving DecidableEq

/-- No movement key pressed. -/
def Keys.none : Keys := ⟨false, false, false, false⟩

/-- The objects of `main` that the frame loop mutates. -/
structure State where
  player : CircleShape
  view : View
  lightEffect : CircleShape
deriving DecidableEq

/-- The objects as constructed before the loop (lines 22-39): player of radius 20 at
(400, 300), view centred on the player with size 800 x 600, light circle of radius 200. -/
def init : State :=
  { player := { radius := 20, position := ⟨400, 300⟩ }
    view := { center := ⟨400, 300⟩, size := ⟨800, 600⟩ }
    lightEffect := { radius := 200, position := ⟨0, 0⟩ } }

/-- Line 46: `Vector2f mapSize(mapTexture.getSize().x, mapTexture.getSize().y)`. -/
def mapSize (textureSize : Vector2u) : Vector2f :=
  ⟨(textureSize.x : ℚ), (textureSize.y : ℚ)⟩

/-- Lines 57-62: the `movement` vector built from the pressed keys. -/
def movement (k : Keys) : Vector2f :=
  let speed : ℚ := 200
  let m : Vector2f := ⟨0, 0⟩
  let m := if k.W then { m with y := m.y - speed } else m
  let m := if k.S then { m with y := m.y + speed } else m
  let m := if k.A then { m with x := m.x - speed } else m
  let m := if k.D then { m with x := m.x + speed } else m
  m

/-- Lines 65-66: the offset `movement * deltaTime` handed to `player.move`, with
`deltaTime` the binary32 quotient `1.f / 60.f`. -/
def displacement (k : Keys) : Vector2f :=
  let deltaTime : ℚ := binary32 (1 / 60)
  (movement k).scale deltaTime

/-- Lines 56-66: the player after `player.move(movement * deltaTime)`. -/
def movePlayer (k : Keys) (player : CircleShape) : CircleShape :=
  player.move (displacement k)

/-- Lines 71-74: the clamp of the player position to the map. -/
def clampPlayer (mapSize : Vector2f) (player : CircleShape) : CircleShape :=
  let playerPos := player.position
  let playerPos := { playerPos with
    x := std.max player.radius (std.min (mapSize.x - player.radius) playerPos.x) }
  let playerPos := { playerPos with
    y := std.max player.radius (std.min (mapSize.y - player.radius) playerPos.y) }
  player.setPosition playerPos

/-- Lines 77-84: the view centre recomputed from the player position and clamped. -/
def updateView (mapSize : Vector2f) (player : CircleShape) (view : View) : View :=
  let viewCenter := player.position
  let halfWidth := view.size.x / 2
  let halfHeight := view.size.y / 2
  let viewCenter := { viewCenter with
    x := std.max halfWidth (std.min (mapSize.x - halfWidth) viewCenter.x) }
  let viewCenter := { viewCenter with
    y := std.max halfHeight (std.min (mapSize.y - halfHeight) viewCenter.y) }
  view.setCenter viewCenter

/-- Lines 56-87: the state update of one iteration of the frame loop. -/
def frame (mapSize : Vector2f) (k : Keys) (s : State) : State :=
  let player := movePlayer k s.player
  let player := clampPlayer mapSize player
  let view := updateView mapSize player s.view
  let lightEffect := s.lightEffect.setPosition player.position
  { player := player, view := view, lightEffect := lightEffect }

/-! ## The reference clamp of the specification -/

/-- The clamp of the specification's glossary: restrict a value to lie within
`[low, high]`, saturating at the nearer bound. -/
def clamp (value low high : ℚ) : ℚ :=
  if value < low then low else if high < value then high else value

/-- The counting of a key in the specification's displacement formula: 1 when
pressed and 0 otherwise. -/
def keyValue (pressed : Bool) : ℚ := if pressed then 1 else 0

/-! ## Evaluating binary32 roundings -/

/-- The binary exponent of a positive rational, from the two powers that bracket it. -/
theorem log_two_eq (q : ℚ) (e : ℤ) (h1 : 2 ^ e ≤ q) (h2 : q < 2 ^ (e + 1)) :
    Int.log 2 q = e := by
  have hq : 0 < q := lt_of_lt_of_le (by positivity) h1
  have ha : e ≤ Int.log 2 q :=
    (Int.zpow_le_iff_le_log (by norm_num) hq).mp (by exact_mod_cast h1)
  have hb : Int.log 2 q < e + 1 :=
    (Int.lt_zpow_iff_log_lt (by norm_num) hq).mp (by exact_mod_cast h2)
  omega

/-- Away from a tie the rounding is the integer within one half. -/
theorem roundHalfEven_eq (q : ℚ) (n : ℤ) (h1 : (n : ℚ) - 1 / 2 < q) (h2 : q < n + 1 / 2) :
    roundHalfEven q = n := by
  unfold roundHalfEven
  rcases lt_or_le q n with h | h
  · have hf : ⌊q⌋ = n - 1 := by
      rw [Int.floor_eq_iff]; push_cast; constructor <;> linarith
    simp only [hf]
    push_cast
    rw [if_neg (by linarith), if_pos (by linarith)]
    ring
  · have hf : ⌊q⌋ = n := by
      rw [Int.floor_eq_iff]; constructor <;> linarith
    simp only [hf]
    rw [if_pos (by linarith)]

/-- A binary32 rounding computed from the exponent `e` and the significand `n`. -/
theorem binary32_eq (q : ℚ) (e n : ℤ) (he : -126 ≤ e) (h1 : 2 ^ e ≤ |q|)
    (h2 : |q| < 2 ^ (e + 1)) (h3 : (n : ℚ) - 1 / 2 < q / 2 ^ (e - 23))
    (h4 : q / 2 ^ (e - 23) < n + 1 / 2) :
    binary32 q = n * 2 ^ (e - 23) := by
  have hq : q ≠ 0 := by
    intro h
    rw [h, abs_zero] at h1
    exact absurd h1 (not_le.mpr (by positivity))
  unfold binary32
  rw [if_neg hq, log_two_eq |q| e h1 h2, max_eq_left he]
  simp only
  rw [roundHalfEven_eq _ n h3 h4]

theorem binary32_zero : binary32 0 = 0 := by simp [binary32]

/-- The value of `1.f / 60.f`. -/
theorem deltaTime_eq : binary32 (1 / 60) = 8947849 / 536870912 := by
  rw [binary32_eq (1 / 60) (-6) 8947849 (by norm_num) (by norm_num [abs_of_pos])
    (by norm_num [abs_of_pos]) (by norm_num) (by norm_num)]
  norm_num

/-- The value of `200.f * deltaTime`; the exact product `200 · 8947849 / 536870912`
is `223696225 / 67108864`. -/
theorem step_pos : binary32 (223696225 / 67108864) = 6990507 / 2097152 := by
  rw [binary32_eq _ 1 13981014 (by norm_num) (by norm_num [abs_of_pos])
    (by norm_num [abs_of_pos]) (by norm_num) (by norm_num)]
  norm_num

/-- The value of `-200.f * deltaTime`. -/
theorem step_neg : binary32 (-(223696225 / 67108864)) = -(6990507 / 2097152) := by
  rw [binary32_eq _ 1 (-13981014) (by norm_num) (by norm_num [abs_of_neg])
    (by norm_num [abs_of_neg]) (by norm_num) (by norm_num)]
  norm_num

/-- The offset for each of the sixteen key sets. -/
theorem displacement_eq (k : Keys) :
    displacement k =
      ⟨(keyValue k.D - keyValue k.A) * (6990507 / 2097152),
        (keyValue k.S - keyValue k.W) * (6990507 / 2097152)⟩ := by
  rcases k with ⟨_ | _, _ | _, _ | _, _ | _⟩ <;>
    norm_num [displacement, movement, Vector2f.scale, keyValue, deltaTime_eq, step_pos,
      step_neg, binary32_zero]

/-! ## Order facts about `std::max` and `std::min` -/

theorem std_max_eq (a b : ℚ) : std.max a b = max a b := by
  unfold std.max
  split_ifs with h
  · exact (max_eq_right h.le).symm
  · exact (max_eq_left (not_lt.mp h)).symm

theorem std_min_eq (a b : ℚ) : std.min a b = min a b := by
  unfold std.min
  split_ifs with h
  · exact (min_eq_right h.le).symm
  · exact (min_eq_left (not_lt.mp h)).symm

/-- The lower bound of the source's clamp expression holds unconditionally. -/
theorem margin_le_clampExpr (m e v : ℚ) : m ≤ std.max m (std.min (e - m) v) := by
  rw [std_max_eq]; exact le_max_left _ _

/-- The upper bound of the source's clamp expression needs a non-inverted range. -/
theorem clampExpr_le (m e v : ℚ) (h : 2 * m ≤ e) :
    std.max m (std.min (e - m) v) ≤ e - m := by
  rw [std_max_eq, std_min_eq]
  exact max_le (by linarith) (min_le_left _ _)

/-- On an inverted range the source's clamp expression is the margin. -/
theorem clampExpr_inverted (m e v : ℚ) (h : e - m < m) :
    std.max m (std.min (e - m) v) = m := by
  rw [std_max_eq, std_min_eq]
  exact max_eq_left (le_trans (min_le_left _ _) h.le)

/-- Inside the range the source's clamp expression is the identity. -/
theorem clampExpr_inside (m e v : ℚ) (h1 : m ≤ v) (h2 : v ≤ e - m) :
    std.max m (std.min (e - m) v) = v := by
  rw [std_max_eq, std_min_eq, min_eq_right h2, max_eq_right h1]

/-- The source's clamp expression is idempotent, also on an inverted range. -/
theorem clampExpr_idem (m e v : ℚ) :
    std.max m (std.min (e - m) (std.max m (std.min (e - m) v))) =
      std.max m (std.min (e - m) v) := by
  rcases le_or_lt m (e - m) with h | h
  · exact clampExpr_inside m e _ (margin_le_clampExpr m e v) (clampExpr_le m e v (by linarith))
  · rw [clampExpr_inverted m e _ h, clampExpr_inverted m e v h]

/-- With a non-inverted range the source's clamp expression is the reference clamp. -/
theorem clampExpr_eq_clamp (m e v : ℚ) (h : m ≤ e - m) :
    std.max m (std.min (e - m) v) = clamp v m (e - m) := by
  unfold clamp std.max std.min
  split_ifs <;> first | rfl | linarith

/-- Below the range the source's clamp expression is the margin. -/
theorem clampExpr_below (m e v : ℚ) (h : v < m) :
    std.max m (std.min (e - m) v) = m := by
  rw [std_max_eq, std_min_eq]
  exact max_eq_left (le_trans (min_le_right _ _) h.le)

/-- Above a non-inverted range the source's clamp expression is the upper bound. -/
theorem clampExpr_above (m e v : ℚ) (h : m ≤ e - m) (hv : e - m < v) :
    std.max m (std.min (e - m) v) = e - m := by
  rw [std_max_eq, std_min_eq, min_eq_left hv.le, max_eq_right h]

/-- One axis of the frame: a value clamped with the radius and then with the view
half-extent stays within `hw - r` of the first clamp. -/
theorem axis_inside_view (r hw e p : ℚ) (he : 2 * hw ≤ e) (hr : r ≤ hw) :
    |std.max r (std.min (e - r) p) -
        std.max hw (std.min (e - hw) (std.max r (std.min (e - r) p)))| ≤ hw - r := by
  have h1 : r ≤ std.max r (std.min (e - r) p) := margin_le_clampExpr r e p
  have h2 : std.max r (std.min (e - r) p) ≤ e - r := clampExpr_le r e p (by linarith)
  generalize std.max r (std.min (e - r) p) = q at h1 h2
  rw [std_max_eq, std_min_eq, abs_le]
  rcases max_cases hw (min (e - hw) q) with ⟨hm, _⟩ | ⟨hm, hlt⟩ <;>
    rcases min_cases (e - hw) q with ⟨hn, hle⟩ | ⟨hn, hlt2⟩ <;>
    rw [hm] <;> constructor <;> linarith

/-- With no key pressed the offset is zero. -/
theorem displacement_none : displacement Keys.none = ⟨0, 0⟩ := by
  norm_num [displacement, movement, Vector2f.scale, Keys.none, binary32_zero]

/-- With no key pressed `player.move` leaves the player as it is. -/
theorem movePlayer_none (player : CircleShape) : movePlayer Keys.none player = player := by
  rcases player with ⟨r, ⟨x, y⟩⟩
  simp [movePlayer, CircleShape.move, displacement_none, addBinary32]

/-- The move of a player at (779, 21) with W and D pressed: the binary32 sums
`779 + 6990507/2097152` and `21 − 6990507/2097152`, whose exact values are
`1640671915/2097152` and `37049685/2097152`. -/
theorem movePlayer_corner :
    movePlayer ⟨true, false, false, true⟩ ⟨20, ⟨779, 21⟩⟩ =
      ⟨20, ⟨12817749 / 16384, 9262421 / 524288⟩⟩ := by
  have hx : binary32 (1640671915 / 2097152) = 12817749 / 16384 := by
    rw [binary32_eq _ 9 12817749 (by norm_num) (by norm_num [abs_of_pos])
      (by norm_num [abs_of_pos]) (by norm_num) (by norm_num)]
    norm_num
  have hy : binary32 (37049685 / 2097152) = 9262421 / 524288 := by
    rw [binary32_eq _ 4 9262421 (by norm_num) (by norm_num [abs_of_pos])
      (by norm_num [abs_of_pos]) (by norm_num) (by norm_num)]
    norm_num
  simp only [movePlayer, CircleShape.move, displacement_eq, addBinary32, keyValue]
  norm_num [hx, hy]

/-- The player clamp is idempotent for every map size. -/
theorem clampPlayer_idem (mapSize : Vector2f) (player : CircleShape) :
    clampPlayer mapSize (clampPlayer mapSize player) = clampPlayer mapSize player := by
  simp only [clampPlayer, CircleShape.setPosition, clampExpr_idem]

/-! ## Claims -/

/-- C1: for every player position before the clamp and every map size with
`W ≥ 2·radius` and `H ≥ 2·radius`, the player position after the player-clamp step
lies in `[radius, W − radius]` on x and in `[radius, H − radius]` on y. The radius is
read from the player object, so the statement covers the program's radius 20. -/
theorem clampPlayer_within_map (mapSize : Vector2f) (player : CircleShape)
    (hW : 2 * player.radius ≤ mapSize.x) (hH : 2 * player.radius ≤ mapSize.y) :
    (player.radius ≤ (clampPlayer mapSize player).position.x ∧
      (clampPlayer mapSize player).position.x ≤ mapSize.x - player.radius) ∧
    (player.radius ≤ (clampPlayer mapSize player).position.y ∧
      (clampPlayer mapSize player).position.y ≤ mapSize.y - player.radius) ∧
    ∀ (k : Keys) (view : View) (light : CircleShape),
      (player.radius ≤ (frame mapSize k ⟨player, view, light⟩).player.position.x ∧
        (frame mapSize k ⟨player, view, light⟩).player.position.x ≤
          mapSize.x - player.radius) ∧
      (player.radius ≤ (frame mapSize k ⟨player, view, light⟩).player.position.y ∧
        (frame mapSize k ⟨player, view, light⟩).player.position.y ≤
          mapSize.y - player.radius) :=
  ⟨⟨margin_le_clampExpr _ _ _, clampExpr_le _ _ _ hW⟩,
    ⟨margin_le_clampExpr _ _ _, clampExpr_le _ _ _ hH⟩,
    fun _ _ _ => ⟨⟨margin_le_clampExpr _ _ _, clampExpr_le _ _ _ hW⟩,
      ⟨margin_le_clampExpr _ _ _, clampExpr_le _ _ _ hH⟩⟩⟩

/-- C1 scenario: map 800 x 600, radius 20, player at (0, 300) before the clamp; the
bounds hold there and the clamped `x` is 20. -/
theorem clampPlayer_within_map_witness :
    (2 * (20 : ℚ) ≤ 800 ∧ 2 * (20 : ℚ) ≤ 600) ∧
    (clampPlayer ⟨800, 600⟩ ⟨20, ⟨0, 300⟩⟩).position.x = 20 ∧
    ((20 : ℚ) ≤ (clampPlayer ⟨800, 600⟩ ⟨20, ⟨0, 300⟩⟩).position.x ∧
      (clampPlayer ⟨800, 600⟩ ⟨20, ⟨0, 300⟩⟩).position.x ≤ 800 - 20) ∧
    ((20 : ℚ) ≤ (clampPlayer ⟨800, 600⟩ ⟨20, ⟨0, 300⟩⟩).position.y ∧
      (clampPlayer ⟨800, 600⟩ ⟨20, ⟨0, 300⟩⟩).position.y ≤ 600 - 20) :=
  have h := clampPlayer_within_map ⟨800, 600⟩ ⟨20, ⟨0, 300⟩⟩ (by norm_num) (by norm_num)
  ⟨⟨by norm_num, by norm_num⟩,
    by norm_num [clampPlayer, CircleShape.setPosition, std.max, std.min], h.1, h.2.1⟩

/-- C2: for every player position and every map size with `W ≥ 2·hw` and
`H ≥ 2·hh`, where `hw` and `hh` are half the width and height of the view, the view
centre computed by the frame lies in `[hw, W − hw]` on x and in `[hh, H − hh]` on y.
The view size is read from the view object, so the statement covers 800 x 600. -/
theorem updateView_within_map (mapSize : Vector2f) (player : CircleShape) (view : View)
    (hW : 2 * (view.size.x / 2) ≤ mapSize.x) (hH : 2 * (view.size.y / 2) ≤ mapSize.y) :
    (view.size.x / 2 ≤ (updateView mapSize player view).center.x ∧
      (updateView mapSize player view).center.x ≤ mapSize.x - view.size.x / 2) ∧
    (view.size.y / 2 ≤ (updateView mapSize player view).center.y ∧
      (updateView mapSize player view).center.y ≤ mapSize.y - view.size.y / 2) ∧
    ∀ (k : Keys) (light : CircleShape),
      (view.size.x / 2 ≤ (frame mapSize k ⟨player, view, light⟩).view.center.x ∧
        (frame mapSize k ⟨player, view, light⟩).view.center.x ≤
          mapSize.x - view.size.x / 2) ∧
      (view.size.y / 2 ≤ (frame mapSize k ⟨player, view, light⟩).view.center.y ∧
        (frame mapSize k ⟨player, view, light⟩).view.center.y ≤
          mapSize.y - view.size.y / 2) :=
  ⟨⟨margin_le_clampExpr _ _ _, clampExpr_le _ _ _ hW⟩,
    ⟨margin_le_clampExpr _ _ _, clampExpr_le _ _ _ hH⟩,
    fun _ _ => ⟨⟨margin_le_clampExpr _ _ _, clampExpr_le _ _ _ hW⟩,
      ⟨margin_le_clampExpr _ _ _, clampExpr_le _ _ _ hH⟩⟩⟩

/-- C2 scenario: view 800 x 600 (half-width 400), map 800 x 600, player at (790, 300);
the bounds hold there and the view centre has x = 400. -/
theorem updateView_within_map_witness :
    (2 * ((800 : ℚ) / 2) ≤ 800 ∧ 2 * ((600 : ℚ) / 2) ≤ 600) ∧
    (updateView ⟨800, 600⟩ ⟨20, ⟨790, 300⟩⟩ ⟨⟨400, 300⟩, ⟨800, 600⟩⟩).center.x = 400 ∧
    (((800 : ℚ) / 2 ≤
        (updateView ⟨800, 600⟩ ⟨20, ⟨790, 300⟩⟩ ⟨⟨400, 300⟩, ⟨800, 600⟩⟩).center.x ∧
      (updateView ⟨800, 600⟩ ⟨20, ⟨790, 300⟩⟩ ⟨⟨400, 300⟩, ⟨800, 600⟩⟩).center.x ≤
        800 - 800 / 2) ∧
    ((600 : ℚ) / 2 ≤
        (updateView ⟨800, 600⟩ ⟨20, ⟨790, 300⟩⟩ ⟨⟨400, 300⟩, ⟨800, 600⟩⟩).center.y ∧
      (updateView ⟨800, 600⟩ ⟨20, ⟨790, 300⟩⟩ ⟨⟨400, 300⟩, ⟨800, 600⟩⟩).center.y ≤
        600 - 600 / 2)) :=
  have h := updateView_within_map ⟨800, 600⟩ ⟨20, ⟨790, 300⟩⟩ ⟨⟨400, 300⟩, ⟨800, 600⟩⟩
    (by norm_num) (by norm_num)
  ⟨⟨by norm_num, by norm_num⟩,
    by norm_num [updateView, View.setCenter, std.max, std.min], h.1, h.2.1⟩

/-- C4: after one frame the light position equals the player position after that
frame's movement and clamp, which is the clamp of the moved prior player; replacing
the prior light object or the prior view centre does not change it. -/
theorem frame_light_eq_player (mapSize : Vector2f) (k : Keys) (s : State) :
    (frame mapSize k s).lightEffect.position = (frame mapSize k s).player.position ∧
    (frame mapSize k s).player = clampPlayer mapSize (movePlayer k s.player) ∧
    ∀ (light : CircleShape) (center : Vector2f),
      (frame mapSize k
          { s with lightEffect := light, view := { s.view with center := center } }
        ).lightEffect.position = (frame mapSize k s).lightEffect.position :=
  ⟨rfl, rfl, fun _ _ => rfl⟩

/-- C5 as stated fails: with W and D pressed the offset computed on lines 65-66 is
`(6990507/2097152, −6990507/2097152)`, the binary32 product of 200 and the binary32
quotient `1.f / 60.f`, and not `(200·(1/60), −200·(1/60))`. -/
theorem displacement_not_exact :
    displacement ⟨true, false, false, true⟩ = ⟨6990507 / 2097152, -(6990507 / 2097152)⟩ ∧
    displacement ⟨true, false, false, true⟩ ≠
      ⟨(keyValue true - keyValue false) * 200 * (1 / 60),
        (keyValue false - keyValue true) * 200 * (1 / 60)⟩ ∧
    displacement ⟨true, false, false, true⟩ ≠ ⟨200 * (1 / 60), -(200 * (1 / 60))⟩ := by
  have h : displacement ⟨true, false, false, true⟩ =
      ⟨6990507 / 2097152, -(6990507 / 2097152)⟩ := by
    rw [displacement_eq]; norm_num [keyValue]
  refine ⟨h, ?_, ?_⟩ <;> rw [h] <;> norm_num [keyValue]

/-- C5 amended: for every subset of the four movement keys, the `movement` vector is
exactly `((D − A)·speed, (S − W)·speed)` with speed 200, each key counting 1 when
pressed and 0 otherwise; the offset added to the player position before the clamp is
that vector times `dt` in binary32, with `dt` the binary32 quotient
`1/60 = 8947849/536870912`, so each component is `(D − A)` or `(S − W)` times
`6990507/2097152`; the sum with the position is a binary32 sum. Opposite keys cancel,
and W with D gives `(6990507/2097152, −6990507/2097152)`, not a normalized diagonal. -/
theorem displacement_binary32 (k : Keys) :
    movement k = ⟨(keyValue k.D - keyValue k.A) * 200, (keyValue k.S - keyValue k.W) * 200⟩ ∧
    displacement k =
      ⟨binary32 ((keyValue k.D - keyValue k.A) * 200 * binary32 (1 / 60)),
        binary32 ((keyValue k.S - keyValue k.W) * 200 * binary32 (1 / 60))⟩ ∧
    binary32 (1 / 60) = 8947849 / 536870912 ∧
    displacement k =
      ⟨(keyValue k.D - keyValue k.A) * (6990507 / 2097152),
        (keyValue k.S - keyValue k.W) * (6990507 / 2097152)⟩ ∧
    (∀ player : CircleShape,
      (movePlayer k player).position =
        ⟨addBinary32 player.position.x (displacement k).x,
          addBinary32 player.position.y (displacement k).y⟩) ∧
    (∀ w a : Bool, displacement ⟨w, w, a, a⟩ = ⟨0, 0⟩) ∧
    displacement ⟨true, false, false, true⟩ = ⟨6990507 / 2097152, -(6990507 / 2097152)⟩ := by
  have hm : movement k =
      ⟨(keyValue k.D - keyValue k.A) * 200, (keyValue k.S - keyValue k.W) * 200⟩ := by
    rcases k with ⟨_ | _, _ | _, _ | _, _ | _⟩ <;> norm_num [movement, keyValue]
  refine ⟨hm, ?_, deltaTime_eq, displacement_eq k, fun _ => rfl, ?_, ?_⟩
  · simp only [displacement, Vector2f.scale, hm]
  · intro w a
    rw [displacement_eq]
    cases w <;> cases a <;> norm_num [keyValue]
  · rw [displacement_eq]; norm_num [keyValue]

/-- C3: on each axis, whenever `margin ≤ extent − margin`, the code's
`max(margin, min(extent − margin, v))` equals the reference clamp of `v` to
`[margin, extent − margin]`: `v` inside the range, `margin` below it and
`extent − margin` above it. This is what the player clamp (margin = radius) and the
view clamp (margin = half the view size) compute on both axes, and the view centre
equals the player position on an axis where the player is at least one half-extent
away from both map edges. -/
theorem clamp_refines_reference (mapSize : Vector2f) (player : CircleShape) (view : View)
    (m e v : ℚ) (h : m ≤ e - m) :
    (std.max m (std.min (e - m) v) = clamp v m (e - m) ∧
      (m ≤ v → v ≤ e - m → std.max m (std.min (e - m) v) = v) ∧
      (v < m → std.max m (std.min (e - m) v) = m) ∧
      (e - m < v → std.max m (std.min (e - m) v) = e - m)) ∧
    ((player.radius ≤ mapSize.x - player.radius →
        (clampPlayer mapSize player).position.x =
          clamp player.position.x player.radius (mapSize.x - player.radius)) ∧
      (player.radius ≤ mapSize.y - player.radius →
        (clampPlayer mapSize player).position.y =
          clamp player.position.y player.radius (mapSize.y - player.radius))) ∧
    ((view.size.x / 2 ≤ mapSize.x - view.size.x / 2 →
        (updateView mapSize player view).center.x =
          clamp player.position.x (view.size.x / 2) (mapSize.x - view.size.x / 2)) ∧
      (view.size.y / 2 ≤ mapSize.y - view.size.y / 2 →
        (updateView mapSize player view).center.y =
          clamp player.position.y (view.size.y / 2) (mapSize.y - view.size.y / 2))) ∧
    ((view.size.x / 2 ≤ player.position.x →
        player.position.x ≤ mapSize.x - view.size.x / 2 →
        (updateView mapSize player view).center.x = player.position.x) ∧
      (view.size.y / 2 ≤ player.position.y →
        player.position.y ≤ mapSize.y - view.size.y / 2 →
        (updateView mapSize player view).center.y = player.position.y)) :=
  ⟨⟨clampExpr_eq_clamp m e v h, clampExpr_inside m e v, clampExpr_below m e v,
      clampExpr_above m e v h⟩,
    ⟨clampExpr_eq_clamp _ _ _, clampExpr_eq_clamp _ _ _⟩,
    ⟨clampExpr_eq_clamp _ _ _, clampExpr_eq_clamp _ _ _⟩,
    ⟨clampExpr_inside _ _ _, clampExpr_inside _ _ _⟩⟩

/-- C3 at concrete inputs: map 2000 x 1500, view 800 x 600, radius 20, player at
(1000, 1490) after its clamp, and the axis values `m = 20`, `e = 800`, `v = 5`. The
view follows the player on x, where the player is 400 away from both edges, and
saturates at `1500 − 300` on y. -/
theorem clamp_refines_reference_witness :
    (20 : ℚ) ≤ 800 - 20 ∧
    std.max 20 (std.min (800 - 20) 5) = clamp 5 20 (800 - 20) ∧
    std.max 20 (std.min (800 - 20) 5) = 20 ∧
    (updateView ⟨2000, 1500⟩ ⟨20, ⟨1000, 1490⟩⟩ ⟨⟨400, 300⟩, ⟨800, 600⟩⟩).center.x = 1000 ∧
    (updateView ⟨2000, 1500⟩ ⟨20, ⟨1000, 1490⟩⟩ ⟨⟨400, 300⟩, ⟨800, 600⟩⟩).center.y =
      clamp 1490 (600 / 2) (1500 - 600 / 2) ∧
    clamp 1490 (600 / 2) (1500 - 600 / 2) = 1200 :=
  have h := clamp_refines_reference ⟨2000, 1500⟩ ⟨20, ⟨1000, 1490⟩⟩ ⟨⟨400, 300⟩, ⟨800, 600⟩⟩
    20 800 5 (by norm_num)
  ⟨by norm_num, h.1.1, h.1.2.2.1 (by norm_num),
    h.2.2.2.1 (by norm_num) (by norm_num), h.2.2.1.2 (by norm_num),
    by norm_num [clamp]⟩

/-- C6 as stated fails: from the start state (player at (400, 300), radius 20) on a
100 x 100 map, a frame with no key pressed moves the player to (80, 80). -/
theorem frame_noKey_moves_player :
    (frame (mapSize ⟨100, 100⟩) Keys.none init).player.position = ⟨80, 80⟩ ∧
    (frame (mapSize ⟨100, 100⟩) Keys.none init).player.position ≠ init.player.position := by
  have h : (frame (mapSize ⟨100, 100⟩) Keys.none init).player.position = ⟨80, 80⟩ := by
    norm_num [frame, movePlayer_none, clampPlayer, CircleShape.setPosition, mapSize, init,
      std.max, std.min]
  refine ⟨h, ?_⟩
  rw [h]
  simp [init]

/-- C6 amended: for every map size and every player position that lies in
`[radius, W − radius]` on x and in `[radius, H − radius]` on y, a frame with no
movement key pressed leaves the player unchanged. -/
theorem frame_noKey_keeps_player (mapSize : Vector2f) (s : State)
    (hx : s.player.radius ≤ s.player.position.x)
    (hxW : s.player.position.x ≤ mapSize.x - s.player.radius)
    (hy : s.player.radius ≤ s.player.position.y)
    (hyH : s.player.position.y ≤ mapSize.y - s.player.radius) :
    (frame mapSize Keys.none s).player.position = s.player.position ∧
    (frame mapSize Keys.none s).player = s.player := by
  have h : (frame mapSize Keys.none s).player = s.player := by
    rcases s with ⟨⟨r, ⟨x, y⟩⟩, view, light⟩
    simp only [frame, movePlayer_none, clampPlayer, CircleShape.setPosition]
    rw [clampExpr_inside _ _ _ hx hxW, clampExpr_inside _ _ _ hy hyH]
  exact ⟨by rw [h], h⟩

/-- C6 amended, at the start state on an 800 x 600 map: the player stays at
(400, 300). -/
theorem frame_noKey_keeps_player_witness :
    (frame ⟨800, 600⟩ Keys.none init).player.position = ⟨400, 300⟩ ∧
    (frame ⟨800, 600⟩ Keys.none init).player = init.player :=
  frame_noKey_keeps_player ⟨800, 600⟩ init (by norm_num [init]) (by norm_num [init])
    (by norm_num [init]) (by norm_num [init])

/-- C7 as stated fails: on a map 30 wide, less than twice the radius 20, a player at
x = 10 is clamped to x = 20, not to the midpoint 15. -/
theorem clampPlayer_not_midpoint :
    (30 : ℚ) < 2 * 20 ∧
    (clampPlayer ⟨30, 600⟩ ⟨20, ⟨10, 300⟩⟩).position.x = 20 ∧
    (clampPlayer ⟨30, 600⟩ ⟨20, ⟨10, 300⟩⟩).position.x ≠ 30 / 2 := by
  have h : (clampPlayer ⟨30, 600⟩ ⟨20, ⟨10, 300⟩⟩).position.x = 20 := by
    norm_num [clampPlayer, CircleShape.setPosition, std.max, std.min]
  refine ⟨by norm_num, h, ?_⟩
  rw [h]
  norm_num

/-- C7 amended: for every player position and every map whose extent on an axis is
less than twice the player radius, the player coordinate on that axis after the
clamp step is the radius. -/
theorem clampPlayer_degenerate (mapSize : Vector2f) (player : CircleShape) :
    (mapSize.x < 2 * player.radius →
      (clampPlayer mapSize player).position.x = player.radius) ∧
    (mapSize.y < 2 * player.radius →
      (clampPlayer mapSize player).position.y = player.radius) :=
  ⟨fun h => clampExpr_inverted _ _ _ (by linarith),
    fun h => clampExpr_inverted _ _ _ (by linarith)⟩

/-- C7 amended, on a 30 x 10 map with radius 20: the player lands on (20, 20). -/
theorem clampPlayer_degenerate_witness :
    ((30 : ℚ) < 2 * 20 ∧ (10 : ℚ) < 2 * 20) ∧
    (clampPlayer ⟨30, 10⟩ ⟨20, ⟨10, 300⟩⟩).position.x = 20 ∧
    (clampPlayer ⟨30, 10⟩ ⟨20, ⟨10, 300⟩⟩).position.y = 20 :=
  ⟨⟨by norm_num, by norm_num⟩,
    (clampPlayer_degenerate ⟨30, 10⟩ ⟨20, ⟨10, 300⟩⟩).1 (by norm_num),
    (clampPlayer_degenerate ⟨30, 10⟩ ⟨20, ⟨10, 300⟩⟩).2 (by norm_num)⟩

/-- C8: for every map size with `W ≥ 2·hw` and `H ≥ 2·hh`, radius at most `hw` and
`hh`, and every prior state and key set, after one frame the player circle lies
inside the view rectangle: `|P.x − C.x| ≤ hw − radius` and `|P.y − C.y| ≤ hh − radius`
for the clamped player position `P` and the clamped view centre `C`. -/
theorem frame_player_inside_view (mapSize : Vector2f) (k : Keys) (s : State)
    (hW : 2 * (s.view.size.x / 2) ≤ mapSize.x) (hH : 2 * (s.view.size.y / 2) ≤ mapSize.y)
    (hrw : s.player.radius ≤ s.view.size.x / 2) (hrh : s.player.radius ≤ s.view.size.y / 2) :
    |(frame mapSize k s).player.position.x - (frame mapSize k s).view.center.x| ≤
        s.view.size.x / 2 - s.player.radius ∧
    |(frame mapSize k s).player.position.y - (frame mapSize k s).view.center.y| ≤
        s.view.size.y / 2 - s.player.radius :=
  ⟨axis_inside_view _ _ _ _ hW hrw, axis_inside_view _ _ _ _ hH hrh⟩

/-- C8 on an 800 x 600 map with W and D pressed, from a player at (779, 21) with the
program's radius 20 and view 800 x 600: the player is clamped to the corner (780, 20),
the view centre is (400, 300), and the bound on x is attained. -/
theorem frame_player_inside_view_witness :
    (frame ⟨800, 600⟩ ⟨true, false, false, true⟩
        { init with player := ⟨20, ⟨779, 21⟩⟩ }).player.position = ⟨780, 20⟩ ∧
    (frame ⟨800, 600⟩ ⟨true, false, false, true⟩
        { init with player := ⟨20, ⟨779, 21⟩⟩ }).view.center = ⟨400, 300⟩ ∧
    |(frame ⟨800, 600⟩ ⟨true, false, false, true⟩
          { init with player := ⟨20, ⟨779, 21⟩⟩ }).player.position.x -
        (frame ⟨800, 600⟩ ⟨true, false, false, true⟩
          { init with player := ⟨20, ⟨779, 21⟩⟩ }).view.center.x| ≤ (800 : ℚ) / 2 - 20 ∧
    |(frame ⟨800, 600⟩ ⟨true, false, false, true⟩
          { init with player := ⟨20, ⟨779, 21⟩⟩ }).player.position.y -
        (frame ⟨800, 600⟩ ⟨true, false, false, true⟩
          { init with player := ⟨20, ⟨779, 21⟩⟩ }).view.center.y| ≤ (600 : ℚ) / 2 - 20 :=
  ⟨by norm_num [frame, movePlayer_corner, clampPlayer, CircleShape.setPosition, init,
      std.max, std.min],
    by norm_num [frame, movePlayer_corner, clampPlayer, CircleShape.setPosition, updateView,
      View.setCenter, init, std.max, std.min],
    frame_player_inside_view ⟨800, 600⟩ ⟨true, false, false, true⟩
      { init with player := ⟨20, ⟨779, 21⟩⟩ }
      (by norm_num [init]) (by norm_num [init]) (by norm_num [init]) (by norm_num [init])⟩

/-- C9: for every value `v`, margin `m` and extent `E` with `E − m < m`, the code's
`max(m, min(E − m, v))` is exactly `m` (no sign condition on `m` is needed). When the
texture has size (0, 0), as after a failed load, one frame from any state with the
program's radius 20 and view 800 x 600, the start state included, puts the player at
(20, 20) and the view centre at (400, 300) whatever keys are pressed. -/
theorem clamp_inverted_range (m e v : ℚ) (k : Keys) (s : State) (h : e - m < m) :
    std.max m (std.min (e - m) v) = m ∧
    ((frame (mapSize ⟨0, 0⟩) k init).player.position = ⟨20, 20⟩ ∧
      (frame (mapSize ⟨0, 0⟩) k init).view.center = ⟨400, 300⟩) ∧
    (s.player.radius = 20 → s.view.size = ⟨800, 600⟩ →
      (frame (mapSize ⟨0, 0⟩) k s).player.position = ⟨20, 20⟩ ∧
      (frame (mapSize ⟨0, 0⟩) k s).view.center = ⟨400, 300⟩) := by
  have key : ∀ t : State, t.player.radius = 20 → t.view.size = ⟨800, 600⟩ →
      (frame (mapSize ⟨0, 0⟩) k t).player.position = ⟨20, 20⟩ ∧
      (frame (mapSize ⟨0, 0⟩) k t).view.center = ⟨400, 300⟩ := by
    intro t hr hs
    have hp : (frame (mapSize ⟨0, 0⟩) k t).player.position = ⟨20, 20⟩ := by
      simp only [frame, clampPlayer, CircleShape.setPosition, movePlayer, CircleShape.move,
        mapSize, hr]
      rw [clampExpr_inverted _ _ _ (by norm_num), clampExpr_inverted _ _ _ (by norm_num)]
    refine ⟨hp, ?_⟩
    simp only [frame, updateView, View.setCenter, hs, mapSize]
    rw [clampExpr_inverted _ _ _ (by norm_num), clampExpr_inverted _ _ _ (by norm_num)]
    norm_num
  exact ⟨clampExpr_inverted m e v h, key init rfl rfl, key s⟩

/-- C9 at `m = 20`, `E = 0`, `v = 1000`, and for a failed load with W and D pressed
from a state whose player is far away at (5000, -70). -/
theorem clamp_inverted_range_witness :
    ((0 : ℚ) - 20 < 20) ∧
    std.max 20 (std.min (0 - 20) 1000) = 20 ∧
    (frame (mapSize ⟨0, 0⟩) ⟨true, false, false, true⟩
        { init with player := ⟨20, ⟨5000, -70⟩⟩ }).player.position = ⟨20, 20⟩ ∧
    (frame (mapSize ⟨0, 0⟩) ⟨true, false, false, true⟩
        { init with player := ⟨20, ⟨5000, -70⟩⟩ }).view.center = ⟨400, 300⟩ :=
  have h := clamp_inverted_range 20 0 1000 ⟨true, false, false, true⟩
    { init with player := ⟨20, ⟨5000, -70⟩⟩ } (by norm_num)
  ⟨by norm_num, h.1, h.2.2 rfl rfl⟩

/-- C10: for every state and every map size, degenerate ones included, applying the
frame with no movement key pressed twice gives the same state (player position, view
centre and light position) as applying it once; the per-axis clamp
`max(m, min(E − m, ·))` is idempotent for all `m` and `E`. -/
theorem frame_noKey_idempotent (mapSize : Vector2f) (s : State) :
    frame mapSize Keys.none (frame mapSize Keys.none s) = frame mapSize Keys.none s ∧
    ∀ m e v : ℚ,
      std.max m (std.min (e - m) (std.max m (std.min (e - m) v))) =
        std.max m (std.min (e - m) v) := by
  refine ⟨?_, clampExpr_idem⟩
  simp only [frame, movePlayer_none, clampPlayer_idem]
  rfl

end Sfmlmap
